import Mathlib

/-!
Shallow embedding of `src/solana/programs/pokemon-card-game/src/lib.rs`
(an Anchor/Solana program) and verification of its specification.

Modelling conventions:
* `Pubkey` is modelled as `Nat`; `Pubkey::default()` is `0`.
* `u64` fields are modelled as `Nat`.  Arithmetic that can overflow a
  `u64` and whose overflow is observable (the damage formula, which
  multiplies two `u64` stats) is reduced modulo `2 ^ 64`, matching
  Rust release-mode wrapping semantics; a division by a wrapped-to-zero
  denominator aborts the instruction (Rust panics on division by zero),
  modelled as `Option.none` / `MoveOutcome.panicked`.
* `i64` timestamps are modelled as `Int`.
* Each instruction handler is translated as a pure function from the
  accounts it touches to the mutated accounts, together with an
  `Option ErrorCode` (`none` = the handler returned `Ok`).  All
  `require!` checks in the source precede every account mutation, so a
  failing handler returns its accounts unchanged; this is stated and
  proved rather than assumed (the Anchor runtime additionally rolls
  back every write of a failed instruction).
* Emitted Anchor events are collected in a `List Event`.
* The global system is a `World`: the singleton `GameState` plus
  key-indexed maps for the PDA accounts (`player_state` keyed by the
  player key, `pokemon_card` / `battle` / `trading_offer` keyed by the
  `u64` id used in their seeds).  `Step` relates a world to a world
  produced by one successful instruction; an `init` account constraint
  becomes the precondition that the map has no entry at the seed key,
  and `init_if_needed` (used for `player_state` in minting) defaults a
  missing record to an all-zero record, as Anchor zero-initialises
  fresh accounts.
-/

/-- Solana public keys, abstracted to `Nat`; `Pubkey::default()` is `0`. -/
abbrev Pubkey := Nat

/-- The modulus of `u64` arithmetic. -/
def U64MOD : Nat := 2 ^ 64

/-- `PokemonMove` from the source (`pub struct PokemonMove`). -/
structure PokemonMove where
  name : String
  pokemon_type : Nat
  move_type : Nat
  power : Nat
  accuracy : Nat
  energy_cost : Nat
  description : String
deriving Repr, DecidableEq

/-- `PokemonCardData` from the source: the instruction argument to `mint_pokemon_card`. -/
structure PokemonCardData where
  name : String
  pokemon_type : Nat
  hp : Nat
  attack : Nat
  defense : Nat
  speed : Nat
  rarity : Nat
  evolution_stage : Nat
  evolution_cost : Nat
  moves : List PokemonMove
  image_uri : String
  description : String
deriving Repr, DecidableEq

/-- `PokemonCard` account from the source (`#[account] pub struct PokemonCard`). -/
structure PokemonCard where
  token_id : Nat
  owner : Pubkey
  name : String
  pokemon_type : Nat
  hp : Nat
  attack : Nat
  defense : Nat
  speed : Nat
  rarity : Nat
  evolution_stage : Nat
  evolution_cost : Nat
  moves : List PokemonMove
  image_uri : String
  description : String
  is_active : Bool
  minted_at : Int
deriving Repr, DecidableEq

/-- `BattleStatus` from the source. -/
inductive BattleStatus where
  | Waiting
  | Active
  | Finished
  | Cancelled
deriving Repr, DecidableEq

/-- `Battle` account from the source. -/
structure Battle where
  battle_id : Nat
  player1 : Pubkey
  player2 : Pubkey
  player1_pokemon : List Nat
  player2_pokemon : List Nat
  status : BattleStatus
  turn_number : Nat
  current_player : Pubkey
  created_at : Int
  finished_at : Int
deriving Repr, DecidableEq

/-- `PlayerState` account from the source. -/
structure PlayerState where
  player : Pubkey
  card_count : Nat
  active_battle_id : Nat
  energy : Nat
  wins : Nat
  losses : Nat
deriving Repr, DecidableEq

/-- `TradingOffer` account from the source. -/
structure TradingOffer where
  offer_id : Nat
  offerer : Pubkey
  offered_cards : List Nat
  target_player : Option Pubkey
  requested_cards : List Nat
  is_active : Bool
  created_at : Int
  expires_at : Int
deriving Repr, DecidableEq

/-- `GameState` account from the source. -/
structure GameState where
  authority : Pubkey
  total_cards_minted : Nat
  total_battles : Nat
  total_trades : Nat
  mint_price : Nat
  battle_reward : Nat
  trading_fee : Nat
  max_cards_per_player : Nat
  max_battle_duration : Nat
  max_energy : Nat
  energy_per_turn : Nat
  offer_expiration_time : Nat
deriving Repr, DecidableEq

/-- `ErrorCode` from the source (`#[error_code]`). -/
inductive ErrorCode where
  | InsufficientPayment
  | MaxCardsExceeded
  | PlayerAlreadyInBattle
  | InvalidTeamSize
  | BattleNotAvailable
  | BattleNotActive
  | NotYourTurn
  | BattleTimeout
  | InvalidMove
  | InsufficientEnergy
  | InvalidTradingOffer
  | OfferNotActive
  | OfferExpired
  | OfferNotTargetedToYou
deriving Repr, DecidableEq

/-- The Anchor events (`#[event]`) emitted by the handlers. -/
inductive Event where
  | PokemonCardMinted (token_id : Nat) (owner : Pubkey) (name : String)
      (pokemon_type : Nat) (rarity : Nat)
  | BattleCreated (battle_id : Nat) (player1 : Pubkey) (player2 : Pubkey)
  | BattleJoined (battle_id : Nat) (player : Pubkey)
  | BattleStarted (battle_id : Nat)
  | BattleFinished (battle_id : Nat) (winner : Pubkey)
  | MoveExecuted (battle_id : Nat) (player : Pubkey) (move_name : String) (damage : Nat)
  | TradingOfferCreated (offer_id : Nat) (offerer : Pubkey) (target_player : Option Pubkey)
  | TradingOfferAccepted (offer_id : Nat) (accepter : Pubkey)
deriving Repr, DecidableEq

/-- Outcome of `execute_move`: `Ok`, a `require!` error, or a Rust
arithmetic abort (index out of bounds / division by zero). -/
inductive MoveOutcome where
  | ok
  | err (e : ErrorCode)
  | panicked
deriving Repr, DecidableEq

/-- The `initialize` instruction (that word is a Lean keyword, hence the
different name): sets every tunable to its fixed default. -/
def initGameState (authority : Pubkey) : GameState :=
  { authority := authority
    total_cards_minted := 0
    total_battles := 0
    total_trades := 0
    mint_price := 1000000
    battle_reward := 500000
    trading_fee := 100000
    max_cards_per_player := 1000
    max_battle_duration := 3600
    max_energy := 100
    energy_per_turn := 10
    offer_expiration_time := 604800 }

/-- `calculate_damage` from the source:
`let damage = (base_damage * attack_stat) / (defense_stat + 50);
 if damage > 0 { damage } else { 1 }`.
The `u64` product and sum wrap modulo `2 ^ 64`; if the wrapped
denominator is `0` the Rust division panics, modelled as `none`. -/
def calculate_damage (attacker defender : PokemonCard) (move_data : PokemonMove) :
    Option Nat :=
  let base_damage := move_data.power
  let attack_stat := attacker.attack
  let defense_stat := defender.defense
  let den := (defense_stat + 50) % U64MOD
  if den = 0 then none
  else
    let damage := (base_damage * attack_stat) % U64MOD / den
    some (if damage > 0 then damage else 1)

/-- `mint_pokemon_card`.  Inputs: the `game_state` and `player_state`
accounts, the signer key, the `payment` token-account amount, the
instruction argument and the clock.  Output: `(error?, game_state,
player_state, minted card, events)`. -/
def mint_pokemon_card (g : GameState) (ps : PlayerState) (player : Pubkey)
    (payment_amount : Nat) (card_data : PokemonCardData) (now : Int) :
    Option ErrorCode × GameState × PlayerState × Option PokemonCard × List Event :=
  if ¬ (payment_amount ≥ g.mint_price) then
    (some .InsufficientPayment, g, ps, none, [])
  else if ¬ (ps.card_count < g.max_cards_per_player) then
    (some .MaxCardsExceeded, g, ps, none, [])
  else
    let pokemon_card : PokemonCard :=
      { token_id := g.total_cards_minted
        owner := player
        name := card_data.name
        pokemon_type := card_data.pokemon_type
        hp := card_data.hp
        attack := card_data.attack
        defense := card_data.defense
        speed := card_data.speed
        rarity := card_data.rarity
        evolution_stage := card_data.evolution_stage
        evolution_cost := card_data.evolution_cost
        moves := card_data.moves
        image_uri := card_data.image_uri
        description := card_data.description
        is_active := true
        minted_at := now }
    let g' := { g with total_cards_minted := g.total_cards_minted + 1 }
    let ps' := { ps with card_count := ps.card_count + 1 }
    (none, g', ps', some pokemon_card,
      [Event.PokemonCardMinted pokemon_card.token_id pokemon_card.owner
        pokemon_card.name pokemon_card.pokemon_type pokemon_card.rarity])

/-- `create_battle`.  Output: `(error?, game_state, player_state, battle, events)`. -/
def create_battle (g : GameState) (ps : PlayerState) (player : Pubkey)
    (payment_amount : Nat) (pokemon_token_ids : List Nat) (now : Int) :
    Option ErrorCode × GameState × PlayerState × Option Battle × List Event :=
  if ¬ (payment_amount ≥ g.battle_reward) then
    (some .InsufficientPayment, g, ps, none, [])
  else if ¬ (ps.active_battle_id = 0) then
    (some .PlayerAlreadyInBattle, g, ps, none, [])
  else if ¬ (pokemon_token_ids.length > 0 ∧ pokemon_token_ids.length ≤ 6) then
    (some .InvalidTeamSize, g, ps, none, [])
  else
    let battle : Battle :=
      { battle_id := g.total_battles
        player1 := player
        player2 := 0
        player1_pokemon := pokemon_token_ids
        player2_pokemon := []
        status := .Waiting
        turn_number := 0
        current_player := player
        created_at := now
        finished_at := 0 }
    let ps' := { ps with active_battle_id := battle.battle_id }
    let g' := { g with total_battles := g.total_battles + 1 }
    (none, g', ps', some battle,
      [Event.BattleCreated battle.battle_id battle.player1 battle.player2])

/-- `join_battle`.  Output: `(error?, battle, player_state, events)`. -/
def join_battle (b : Battle) (ps : PlayerState) (player : Pubkey)
    (pokemon_token_ids : List Nat) :
    Option ErrorCode × Battle × PlayerState × List Event :=
  if ¬ (b.status = .Waiting) then
    (some .BattleNotAvailable, b, ps, [])
  else if ¬ (ps.active_battle_id = 0) then
    (some .PlayerAlreadyInBattle, b, ps, [])
  else if ¬ (pokemon_token_ids.length > 0 ∧ pokemon_token_ids.length ≤ 6) then
    (some .InvalidTeamSize, b, ps, [])
  else
    let b' := { b with player2 := player, player2_pokemon := pokemon_token_ids,
                       status := .Active }
    let ps' := { ps with active_battle_id := b'.battle_id }
    (none, b', ps',
      [Event.BattleJoined b'.battle_id b'.player2, Event.BattleStarted b'.battle_id])

/-- `execute_move`.  Inputs mirror the `ExecuteMove` accounts: the
battle, the actor's `player_state`, the `current_pokemon` and
`target_pokemon` card accounts, the signer, the `move_index : u8`
argument (the unused `target_pokemon_index` argument is omitted) and
the clock.  The source compares `move_index < moves.len() as u8`: the
list length is truncated to `u8`, hence the `% 256`.  Output:
`(outcome, battle, player_state, events)`. -/
def execute_move (g : GameState) (b : Battle) (ps : PlayerState)
    (current_pokemon target_pokemon : PokemonCard) (player : Pubkey)
    (move_index : Nat) (now : Int) :
    MoveOutcome × Battle × PlayerState × List Event :=
  if ¬ (b.status = .Active) then
    (.err .BattleNotActive, b, ps, [])
  else if ¬ (b.current_player = player) then
    (.err .NotYourTurn, b, ps, [])
  else if ¬ (now ≤ b.created_at + (g.max_battle_duration : Int)) then
    (.err .BattleTimeout, b, ps, [])
  else if ¬ (move_index < current_pokemon.moves.length % 256) then
    (.err .InvalidMove, b, ps, [])
  else
    match current_pokemon.moves.get? move_index with
    | none => (.panicked, b, ps, [])
    | some move_data =>
      if ¬ (ps.energy ≥ move_data.energy_cost) then
        (.err .InsufficientEnergy, b, ps, [])
      else
        let ps' := { ps with energy := ps.energy - move_data.energy_cost }
        match calculate_damage current_pokemon target_pokemon move_data with
        | none => (.panicked, b, ps', [])
        | some damage =>
          let evs := [Event.MoveExecuted b.battle_id player move_data.name damage]
          if damage ≥ target_pokemon.hp then
            (.ok, { b with status := .Finished, finished_at := now }, ps',
              evs ++ [Event.BattleFinished b.battle_id player])
          else
            (.ok,
              { b with
                  current_player :=
                    if b.current_player = b.player1 then b.player2 else b.player1
                  turn_number := b.turn_number + 1 },
              ps', evs)

/-- `create_trading_offer`.  Output: `(error?, game_state, offer, events)`. -/
def create_trading_offer (g : GameState) (player : Pubkey) (payment_amount : Nat)
    (offered_cards requested_cards : List Nat) (target_player : Option Pubkey)
    (now : Int) :
    Option ErrorCode × GameState × Option TradingOffer × List Event :=
  if ¬ (payment_amount ≥ g.trading_fee) then
    (some .InsufficientPayment, g, none, [])
  else if ¬ (offered_cards.length > 0 ∧ requested_cards.length > 0) then
    (some .InvalidTradingOffer, g, none, [])
  else
    let offer : TradingOffer :=
      { offer_id := g.total_trades
        offerer := player
        offered_cards := offered_cards
        target_player := target_player
        requested_cards := requested_cards
        is_active := true
        created_at := now
        expires_at := now + (g.offer_expiration_time : Int) }
    let g' := { g with total_trades := g.total_trades + 1 }
    (none, g', some offer,
      [Event.TradingOfferCreated offer.offer_id offer.offerer offer.target_player])

/-- `accept_trading_offer`.  Output: `(error?, offer, events)`. -/
def accept_trading_offer (g : GameState) (offer : TradingOffer) (player : Pubkey)
    (payment_amount : Nat) (now : Int) :
    Option ErrorCode × TradingOffer × List Event :=
  if ¬ offer.is_active then
    (some .OfferNotActive, offer, [])
  else if ¬ (now ≤ offer.expires_at) then
    (some .OfferExpired, offer, [])
  else if ¬ (payment_amount ≥ g.trading_fee) then
    (some .InsufficientPayment, offer, [])
  else if ¬ (offer.target_player = none ∨ offer.target_player = some player) then
    (some .OfferNotTargetedToYou, offer, [])
  else
    let offer' := { offer with is_active := false }
    (none, offer',
      [Event.TradingOfferAccepted offer'.offer_id player])

example :
    calculate_damage
      { token_id := 0, owner := 1, name := "A", pokemon_type := 0, hp := 100,
        attack := 50, defense := 0, speed := 0, rarity := 0, evolution_stage := 0,
        evolution_cost := 0, moves := [], image_uri := "", description := "",
        is_active := true, minted_at := 0 }
      { token_id := 1, owner := 2, name := "B", pokemon_type := 0, hp := 100,
        attack := 0, defense := 10, speed := 0, rarity := 0, evolution_stage := 0,
        evolution_cost := 0, moves := [], image_uri := "", description := "",
        is_active := true, minted_at := 0 }
      { name := "m", pokemon_type := 0, move_type := 0, power := 40, accuracy := 100,
        energy_cost := 0, description := "" } = some 33 := by decide

/-! ## The global state machine

A `World` bundles the singleton `game_state` account with the maps of
PDA accounts, addressed by the key appearing in their `seeds`. -/

/-- Point update of a key-indexed account map. -/
def upd {α : Type} (m : Nat → Option α) (k : Nat) (v : α) : Nat → Option α :=
  fun k' => if k' = k then some v else m k'

/-- The whole on-chain state of the program. -/
structure World where
  game : GameState
  players : Pubkey → Option PlayerState
  cards : Nat → Option PokemonCard
  battles : Nat → Option Battle
  offers : Nat → Option TradingOffer

/-- A freshly `init_if_needed`-created `player_state` account: Anchor
zero-initialises every field (the handler never writes `ps.player`). -/
def freshPlayer : PlayerState :=
  { player := 0, card_count := 0, active_battle_id := 0, energy := 0,
    wins := 0, losses := 0 }

/-- The world right after `initialize`: the configured `game_state` and
no other account. -/
def World.start (authority : Pubkey) : World :=
  { game := initGameState authority
    players := fun _ => none
    cards := fun _ => none
    battles := fun _ => none
    offers := fun _ => none }

/-- One successful instruction.  Each constructor carries the account
constraints of its `#[derive(Accounts)]` context (`init` seeds must be
unoccupied, plain `mut` seeds must exist, `init_if_needed` defaults to
a zeroed record) and the equation stating that the handler returned
`Ok` with the given mutated accounts, which are written back. -/
inductive Step : World → World → Prop where
  | mint (w : World) (player : Pubkey) (payment : Nat) (card_data : PokemonCardData)
      (now : Int) (g' : GameState) (ps' : PlayerState) (card : PokemonCard)
      (evs : List Event)
      (hfresh : w.cards w.game.total_cards_minted = none)
      (hrun : mint_pokemon_card w.game ((w.players player).getD freshPlayer) player
                payment card_data now = (none, g', ps', some card, evs)) :
      Step w { w with game := g', players := upd w.players player ps',
                      cards := upd w.cards card.token_id card }
  | createBattle (w : World) (player : Pubkey) (payment : Nat)
      (pokemon_token_ids : List Nat) (now : Int) (ps : PlayerState) (g' : GameState)
      (ps' : PlayerState) (battle : Battle) (evs : List Event)
      (hps : w.players player = some ps)
      (hfresh : w.battles w.game.total_battles = none)
      (hrun : create_battle w.game ps player payment pokemon_token_ids now
                = (none, g', ps', some battle, evs)) :
      Step w { w with game := g', players := upd w.players player ps',
                      battles := upd w.battles battle.battle_id battle }
  | joinBattle (w : World) (bid : Nat) (player : Pubkey) (pokemon_token_ids : List Nat)
      (b : Battle) (ps : PlayerState) (b' : Battle) (ps' : PlayerState)
      (evs : List Event)
      (hb : w.battles bid = some b)
      (hps : w.players player = some ps)
      (hrun : join_battle b ps player pokemon_token_ids = (none, b', ps', evs)) :
      Step w { w with battles := upd w.battles bid b',
                      players := upd w.players player ps' }
  | executeMove (w : World) (bid : Nat) (player : Pubkey) (cid1 cid2 : Nat)
      (move_index : Nat) (now : Int) (b : Battle) (ps : PlayerState)
      (c1 c2 : PokemonCard) (b' : Battle) (ps' : PlayerState) (evs : List Event)
      (hb : w.battles bid = some b)
      (hps : w.players player = some ps)
      (hc1 : w.cards cid1 = some c1)
      (hc2 : w.cards cid2 = some c2)
      (hrun : execute_move w.game b ps c1 c2 player move_index now
                = (.ok, b', ps', evs)) :
      Step w { w with battles := upd w.battles bid b',
                      players := upd w.players player ps' }
  | createOffer (w : World) (player : Pubkey) (payment : Nat)
      (offered_cards requested_cards : List Nat) (target_player : Option Pubkey)
      (now : Int) (g' : GameState) (offer : TradingOffer) (evs : List Event)
      (hfresh : w.offers w.game.total_trades = none)
      (hrun : create_trading_offer w.game player payment offered_cards
                requested_cards target_player now = (none, g', some offer, evs)) :
      Step w { w with game := g', offers := upd w.offers offer.offer_id offer }
  | acceptOffer (w : World) (oid : Nat) (player : Pubkey) (payment : Nat) (now : Int)
      (o : TradingOffer) (o' : TradingOffer) (evs : List Event)
      (ho : w.offers oid = some o)
      (hrun : accept_trading_offer w.game o player payment now = (none, o', evs)) :
      Step w { w with offers := upd w.offers oid o' }

/-- Worlds reachable from a fresh `initialize` through successful
instructions (a failed instruction commits nothing, so it does not
change the world). -/
inductive Reachable : World → Prop where
  | start (authority : Pubkey) : Reachable (World.start authority)
  | step {w w' : World} : Reachable w → Step w w' → Reachable w'

/-! ## Inversion lemmas for the instruction handlers -/

theorem mint_ok_inv {g : GameState} {ps : PlayerState} {player : Pubkey}
    {pay : Nat} {cd : PokemonCardData} {now : Int} {g' : GameState}
    {ps' : PlayerState} {card : PokemonCard} {evs : List Event}
    (h : mint_pokemon_card g ps player pay cd now = (none, g', ps', some card, evs)) :
    g' = { g with total_cards_minted := g.total_cards_minted + 1 } ∧
    ps' = { ps with card_count := ps.card_count + 1 } ∧
    card = { token_id := g.total_cards_minted, owner := player, name := cd.name,
             pokemon_type := cd.pokemon_type, hp := cd.hp, attack := cd.attack,
             defense := cd.defense, speed := cd.speed, rarity := cd.rarity,
             evolution_stage := cd.evolution_stage, evolution_cost := cd.evolution_cost,
             moves := cd.moves, image_uri := cd.image_uri, description := cd.description,
             is_active := true, minted_at := now } ∧
    pay ≥ g.mint_price ∧ ps.card_count < g.max_cards_per_player := by
  unfold mint_pokemon_card at h
  split_ifs at h with h1 h2 <;> simp_all

theorem mint_err_inv {g : GameState} {ps : PlayerState} {player : Pubkey}
    {pay : Nat} {cd : PokemonCardData} {now : Int} {e : ErrorCode} {g' : GameState}
    {ps' : PlayerState} {card? : Option PokemonCard} {evs : List Event}
    (h : mint_pokemon_card g ps player pay cd now = (some e, g', ps', card?, evs)) :
    g' = g ∧ ps' = ps ∧ card? = none ∧ evs = [] := by
  unfold mint_pokemon_card at h
  split_ifs at h with h1 h2 <;> simp_all

theorem create_battle_ok_inv {g : GameState} {ps : PlayerState} {player : Pubkey}
    {pay : Nat} {ids : List Nat} {now : Int} {g' : GameState} {ps' : PlayerState}
    {battle : Battle} {evs : List Event}
    (h : create_battle g ps player pay ids now = (none, g', ps', some battle, evs)) :
    g' = { g with total_battles := g.total_battles + 1 } ∧
    ps' = { ps with active_battle_id := g.total_battles } ∧
    battle = { battle_id := g.total_battles, player1 := player, player2 := 0,
               player1_pokemon := ids, player2_pokemon := [], status := .Waiting,
               turn_number := 0, current_player := player, created_at := now,
               finished_at := 0 } ∧
    pay ≥ g.battle_reward ∧ ps.active_battle_id = 0 ∧
    ids.length > 0 ∧ ids.length ≤ 6 := by
  unfold create_battle at h
  split_ifs at h with h1 h2 h3 <;> simp_all

theorem create_battle_err_inv {g : GameState} {ps : PlayerState} {player : Pubkey}
    {pay : Nat} {ids : List Nat} {now : Int} {e : ErrorCode} {g' : GameState}
    {ps' : PlayerState} {battle? : Option Battle} {evs : List Event}
    (h : create_battle g ps player pay ids now = (some e, g', ps', battle?, evs)) :
    g' = g ∧ ps' = ps ∧ battle? = none ∧ evs = [] := by
  unfold create_battle at h
  split_ifs at h with h1 h2 h3 <;> simp_all

theorem join_battle_ok_inv {b : Battle} {ps : PlayerState} {player : Pubkey}
    {ids : List Nat} {b' : Battle} {ps' : PlayerState} {evs : List Event}
    (h : join_battle b ps player ids = (none, b', ps', evs)) :
    b' = { b with player2 := player, player2_pokemon := ids, status := .Active } ∧
    ps' = { ps with active_battle_id := b.battle_id } ∧
    b.status = .Waiting ∧ ps.active_battle_id = 0 ∧
    ids.length > 0 ∧ ids.length ≤ 6 := by
  unfold join_battle at h
  split_ifs at h with h1 h2 h3 <;> simp_all

theorem join_battle_err_inv {b : Battle} {ps : PlayerState} {player : Pubkey}
    {ids : List Nat} {e : ErrorCode} {b' : Battle} {ps' : PlayerState}
    {evs : List Event}
    (h : join_battle b ps player ids = (some e, b', ps', evs)) :
    b' = b ∧ ps' = ps ∧ evs = [] := by
  unfold join_battle at h
  split_ifs at h with h1 h2 h3 <;> simp_all

theorem execute_move_ok_inv {g : GameState} {b : Battle} {ps : PlayerState}
    {c1 c2 : PokemonCard} {player : Pubkey} {move_index : Nat} {now : Int}
    {b' : Battle} {ps' : PlayerState} {evs : List Event}
    (h : execute_move g b ps c1 c2 player move_index now = (.ok, b', ps', evs)) :
    ∃ md damage,
      b.status = .Active ∧ b.current_player = player ∧
      now ≤ b.created_at + (g.max_battle_duration : Int) ∧
      move_index < c1.moves.length % 256 ∧
      c1.moves.get? move_index = some md ∧
      md.energy_cost ≤ ps.energy ∧
      calculate_damage c1 c2 md = some damage ∧
      ps' = { ps with energy := ps.energy - md.energy_cost } ∧
      ((damage ≥ c2.hp ∧
          b' = { b with status := .Finished, finished_at := now } ∧
          evs = [Event.MoveExecuted b.battle_id player md.name damage,
                 Event.BattleFinished b.battle_id player]) ∨
       (damage < c2.hp ∧
          b' = { b with
                   current_player :=
                     if b.current_player = b.player1 then b.player2 else b.player1
                   turn_number := b.turn_number + 1 } ∧
          evs = [Event.MoveExecuted b.battle_id player md.name damage])) := by
  unfold execute_move at h
  split at h
  · simp at h
  · split at h
    · simp at h
    · split at h
      · simp at h
      · split at h
        · simp at h
        · split at h
          · simp at h
          · split at h
            · simp at h
            · split at h
              · simp at h
              · split at h
                · rename_i h1 h2 h3 h4 x1 md heqmd h5 x2 damage heqd h6
                  rw [not_not] at h1 h2 h3 h4 h5
                  simp only [Prod.mk.injEq, List.singleton_append] at h
                  obtain ⟨-, hb', hps', hevs⟩ := h
                  exact ⟨md, damage, h1, h2, h3, h4, heqmd, h5, heqd, hps'.symm,
                    Or.inl ⟨h6, hb'.symm, hevs.symm⟩⟩
                · rename_i h1 h2 h3 h4 x1 md heqmd h5 x2 damage heqd h6
                  rw [not_not] at h1 h2 h3 h4 h5
                  simp only [Prod.mk.injEq, List.singleton_append] at h
                  obtain ⟨-, hb', hps', hevs⟩ := h
                  exact ⟨md, damage, h1, h2, h3, h4, heqmd, h5, heqd, hps'.symm,
                    Or.inr ⟨by omega, hb'.symm, hevs.symm⟩⟩

theorem execute_move_err_inv {g : GameState} {b : Battle} {ps : PlayerState}
    {c1 c2 : PokemonCard} {player : Pubkey} {move_index : Nat} {now : Int}
    {e : ErrorCode} {b' : Battle} {ps' : PlayerState} {evs : List Event}
    (h : execute_move g b ps c1 c2 player move_index now = (.err e, b', ps', evs)) :
    b' = b ∧ ps' = ps ∧ evs = [] := by
  unfold execute_move at h
  repeat' split at h
  all_goals simp_all

theorem create_offer_ok_inv {g : GameState} {player : Pubkey} {pay : Nat}
    {offered requested : List Nat} {target : Option Pubkey} {now : Int}
    {g' : GameState} {offer : TradingOffer} {evs : List Event}
    (h : create_trading_offer g player pay offered requested target now
           = (none, g', some offer, evs)) :
    g' = { g with total_trades := g.total_trades + 1 } ∧
    offer = { offer_id := g.total_trades, offerer := player,
              offered_cards := offered, target_player := target,
              requested_cards := requested, is_active := true,
              created_at := now,
              expires_at := now + (g.offer_expiration_time : Int) } ∧
    pay ≥ g.trading_fee ∧ offered.length > 0 ∧ requested.length > 0 := by
  unfold create_trading_offer at h
  split_ifs at h with h1 h2 <;> simp_all

theorem create_offer_err_inv {g : GameState} {player : Pubkey} {pay : Nat}
    {offered requested : List Nat} {target : Option Pubkey} {now : Int}
    {e : ErrorCode} {g' : GameState} {offer? : Option TradingOffer} {evs : List Event}
    (h : create_trading_offer g player pay offered requested target now
           = (some e, g', offer?, evs)) :
    g' = g ∧ offer? = none ∧ evs = [] := by
  unfold create_trading_offer at h
  split_ifs at h with h1 h2 <;> simp_all

theorem accept_offer_ok_inv {g : GameState} {offer : TradingOffer} {player : Pubkey}
    {pay : Nat} {now : Int} {o' : TradingOffer} {evs : List Event}
    (h : accept_trading_offer g offer player pay now = (none, o', evs)) :
    o' = { offer with is_active := false } ∧
    offer.is_active = true ∧ now ≤ offer.expires_at ∧ pay ≥ g.trading_fee ∧
    (offer.target_player = none ∨ offer.target_player = some player) := by
  unfold accept_trading_offer at h
  split_ifs at h with h1 h2 h3 h4 <;> simp_all

theorem accept_offer_err_inv {g : GameState} {offer : TradingOffer} {player : Pubkey}
    {pay : Nat} {now : Int} {e : ErrorCode} {o' : TradingOffer} {evs : List Event}
    (h : accept_trading_offer g offer player pay now = (some e, o', evs)) :
    o' = offer ∧ evs = [] := by
  unfold accept_trading_offer at h
  split_ifs at h with h1 h2 h3 h4 <;> simp_all

/-! ## World-level invariants -/

theorem upd_eq_some {α : Type} {m : Nat → Option α} {k id : Nat} {v c : α}
    (h : upd m k v id = some c) : (id = k ∧ c = v) ∨ (id ≠ k ∧ m id = some c) := by
  unfold upd at h
  split at h <;> simp_all

theorem upd_ne {α : Type} (m : Nat → Option α) (k : Nat) (v : α) {id : Nat}
    (h : id ≠ k) : upd m k v id = m id := by
  unfold upd
  simp [h]

/-- How one step can change the `game_state`: either not at all, or one
of the three counters goes up by exactly one. -/
theorem Step.game_cases {w w' : World} (h : Step w w') :
    w'.game = w.game ∨
    w'.game = { w.game with total_cards_minted := w.game.total_cards_minted + 1 } ∨
    w'.game = { w.game with total_battles := w.game.total_battles + 1 } ∨
    w'.game = { w.game with total_trades := w.game.total_trades + 1 } := by
  cases h with
  | mint player payment card_data now g' ps' card evs hfresh hrun =>
      exact Or.inr (Or.inl (mint_ok_inv hrun).1)
  | createBattle player payment ids now ps g' ps' battle evs hps hfresh hrun =>
      exact Or.inr (Or.inr (Or.inl (create_battle_ok_inv hrun).1))
  | joinBattle => exact Or.inl rfl
  | executeMove => exact Or.inl rfl
  | createOffer player payment off req tgt now g' offer evs hfresh hrun =>
      exact Or.inr (Or.inr (Or.inr (create_offer_ok_inv hrun).1))
  | acceptOffer => exact Or.inl rfl

/-- No step changes the economy configuration, and the three counters
never decrease. -/
theorem Step.config_and_counters {w w' : World} (h : Step w w') :
    w'.game.mint_price = w.game.mint_price ∧
    w'.game.battle_reward = w.game.battle_reward ∧
    w'.game.trading_fee = w.game.trading_fee ∧
    w'.game.max_cards_per_player = w.game.max_cards_per_player ∧
    w'.game.max_battle_duration = w.game.max_battle_duration ∧
    w'.game.max_energy = w.game.max_energy ∧
    w'.game.energy_per_turn = w.game.energy_per_turn ∧
    w'.game.offer_expiration_time = w.game.offer_expiration_time ∧
    w.game.total_cards_minted ≤ w'.game.total_cards_minted ∧
    w.game.total_battles ≤ w'.game.total_battles ∧
    w.game.total_trades ≤ w'.game.total_trades := by
  rcases Step.game_cases h with hg | hg | hg | hg <;> rw [hg] <;> simp

/-- Every stored card, battle and offer sits at a key strictly below the
corresponding counter: allocated ids are never reused. -/
theorem reachable_ids_lt {w : World} (h : Reachable w) :
    (∀ id c, w.cards id = some c → id < w.game.total_cards_minted) ∧
    (∀ id b, w.battles id = some b → id < w.game.total_battles) ∧
    (∀ id o, w.offers id = some o → id < w.game.total_trades) := by
  induction h with
  | start authority => simp [World.start]
  | step hr hs ih =>
    obtain ⟨ihc, ihb, iho⟩ := ih
    cases hs with
    | mint player payment card_data now g' ps' card evs hfresh hrun =>
        obtain ⟨hg, -, hcard, -⟩ := mint_ok_inv hrun
        refine ⟨?_, ?_, ?_⟩
        · intro id c hc
          rcases upd_eq_some hc with ⟨rfl, rfl⟩ | ⟨hne, hold⟩
          · rw [hg, hcard]; simp
          · have := ihc id c hold
            rw [hg]; simp; omega
        · intro id b hb
          rw [hg]; simpa using ihb id b hb
        · intro id o ho
          rw [hg]; simpa using iho id o ho
    | createBattle player payment ids now ps g' ps' battle evs hps hfresh hrun =>
        obtain ⟨hg, -, hbattle, -⟩ := create_battle_ok_inv hrun
        refine ⟨?_, ?_, ?_⟩
        · intro id c hc
          rw [hg]; simpa using ihc id c hc
        · intro id b hb
          rcases upd_eq_some hb with ⟨rfl, rfl⟩ | ⟨hne, hold⟩
          · rw [hg, hbattle]; simp
          · have := ihb id b hold
            rw [hg]; simp; omega
        · intro id o ho
          rw [hg]; simpa using iho id o ho
    | joinBattle bid player ids b ps b' ps' evs hb hps hrun =>
        refine ⟨ihc, ?_, iho⟩
        intro id bb hbb
        rcases upd_eq_some hbb with ⟨rfl, rfl⟩ | ⟨hne, hold⟩
        · exact ihb id b hb
        · exact ihb id bb hold
    | executeMove bid player cid1 cid2 move_index now b ps c1 c2 b' ps' evs hb hps hc1 hc2 hrun =>
        refine ⟨ihc, ?_, iho⟩
        intro id bb hbb
        rcases upd_eq_some hbb with ⟨rfl, rfl⟩ | ⟨hne, hold⟩
        · exact ihb id b hb
        · exact ihb id bb hold
    | createOffer player payment off req tgt now g' offer evs hfresh hrun =>
        obtain ⟨hg, hoffer, -⟩ := create_offer_ok_inv hrun
        refine ⟨?_, ?_, ?_⟩
        · intro id c hc
          rw [hg]; simpa using ihc id c hc
        · intro id b hb
          rw [hg]; simpa using ihb id b hb
        · intro id o ho
          rcases upd_eq_some ho with ⟨rfl, rfl⟩ | ⟨hne, hold⟩
          · rw [hg, hoffer]; simp
          · have := iho id o hold
            rw [hg]; simp; omega
    | acceptOffer oid player payment now o o' evs ho hrun =>
        refine ⟨ihc, ihb, ?_⟩
        intro id oo hoo
        rcases upd_eq_some hoo with ⟨rfl, rfl⟩ | ⟨hne, hold⟩
        · exact iho id o ho
        · exact iho id oo hold

/-- Every player record keeps `card_count ≤ max_cards_per_player`. -/
theorem reachable_card_count_le {w : World} (h : Reachable w) :
    ∀ p ps, w.players p = some ps →
      ps.card_count ≤ w.game.max_cards_per_player := by
  induction h with
  | start authority => simp [World.start]
  | step hr hs ih =>
    have hcfg := (Step.config_and_counters hs).2.2.2.1
    cases hs with
    | mint player payment card_data now g' ps' card evs hfresh hrun =>
        obtain ⟨hg, hps', -, -, hlt⟩ := mint_ok_inv hrun
        intro p ps hp
        rcases upd_eq_some hp with ⟨rfl, rfl⟩ | ⟨hne, hold⟩
        · rw [hps']
          rw [hg]; simp
          exact hlt
        · have := ih p ps hold
          rw [hg]; simpa using this
    | createBattle player payment ids now ps0 g' ps' battle evs hps hfresh hrun =>
        obtain ⟨hg, hps', -⟩ := create_battle_ok_inv hrun
        intro p ps hp
        rcases upd_eq_some hp with ⟨rfl, rfl⟩ | ⟨hne, hold⟩
        · rw [hps']
          rw [hg]; simpa using ih _ ps0 hps
        · have := ih p ps hold
          rw [hg]; simpa using this
    | joinBattle bid player ids b ps0 b' ps' evs hb hps hrun =>
        obtain ⟨-, hps', -⟩ := join_battle_ok_inv hrun
        intro p ps hp
        rcases upd_eq_some hp with ⟨rfl, rfl⟩ | ⟨hne, hold⟩
        · rw [hps']
          simpa using ih _ ps0 hps
        · exact ih p ps hold
    | executeMove bid player cid1 cid2 move_index now b ps0 c1 c2 b' ps' evs hb hps hc1 hc2 hrun =>
        obtain ⟨md, damage, -, -, -, -, -, -, -, hps', -⟩ := execute_move_ok_inv hrun
        intro p ps hp
        rcases upd_eq_some hp with ⟨rfl, rfl⟩ | ⟨hne, hold⟩
        · rw [hps']
          simpa using ih _ ps0 hps
        · exact ih p ps hold
    | createOffer player payment off req tgt now g' offer evs hfresh hrun =>
        obtain ⟨hg, -⟩ := create_offer_ok_inv hrun
        intro p ps hp
        have := ih p ps hp
        rw [hg]; simpa using this
    | acceptOffer oid player payment now o o' evs ho hrun =>
        exact ih

/-- A player's energy pool, `0` when the record does not exist. -/
def World.energyOf (w : World) (p : Pubkey) : Nat :=
  match w.players p with
  | some ps => ps.energy
  | none => 0

/-- No instruction ever increases any player's energy. -/
theorem step_energy_mono {w w' : World} (hs : Step w w') (p : Pubkey) :
    w'.energyOf p ≤ w.energyOf p := by
  cases hs with
  | mint player payment card_data now g' ps' card evs hfresh hrun =>
      obtain ⟨-, hps', -⟩ := mint_ok_inv hrun
      unfold World.energyOf
      by_cases hp : p = player
      · subst hp
        simp only [upd, if_pos rfl, hps']
        cases hw : w.players p <;> simp [hw, freshPlayer]
      · simp [upd, hp]
  | createBattle player payment ids now ps0 g' ps' battle evs hps hfresh hrun =>
      obtain ⟨-, hps', -⟩ := create_battle_ok_inv hrun
      unfold World.energyOf
      by_cases hp : p = player
      · subst hp
        simp [upd, hps', hps]
      · simp [upd, hp]
  | joinBattle bid player ids b ps0 b' ps' evs hb hps hrun =>
      obtain ⟨-, hps', -⟩ := join_battle_ok_inv hrun
      unfold World.energyOf
      by_cases hp : p = player
      · subst hp
        simp [upd, hps', hps]
      · simp [upd, hp]
  | executeMove bid player cid1 cid2 move_index now b ps0 c1 c2 b' ps' evs hb hps hc1 hc2 hrun =>
      obtain ⟨md, damage, -, -, -, -, -, -, -, hps', -⟩ := execute_move_ok_inv hrun
      unfold World.energyOf
      by_cases hp : p = player
      · rw [hp]
        have h1 : upd w.players player ps' player = some ps' := by simp [upd]
        dsimp only
        rw [h1, hps, hps']
        simp
      · simp [upd, hp]
  | createOffer => exact le_refl _
  | acceptOffer => exact le_refl _

/-- One step keeps a deactivated offer deactivated. -/
theorem step_offer_stays_inactive {w w' : World} (hs : Step w w') {oid : Nat}
    {o : TradingOffer} (ho : w.offers oid = some o) (hia : o.is_active = false) :
    ∃ o', w'.offers oid = some o' ∧ o'.is_active = false := by
  cases hs with
  | mint => exact ⟨o, ho, hia⟩
  | createBattle => exact ⟨o, ho, hia⟩
  | joinBattle => exact ⟨o, ho, hia⟩
  | executeMove => exact ⟨o, ho, hia⟩
  | createOffer player payment off req tgt now g' offer evs hfresh hrun =>
      obtain ⟨-, hoffer, -⟩ := create_offer_ok_inv hrun
      refine ⟨o, ?_, hia⟩
      have hne : oid ≠ offer.offer_id := by
        rw [hoffer]
        intro hcontra
        rw [hcontra] at ho
        rw [ho] at hfresh
        exact Option.noConfusion hfresh
      show upd w.offers offer.offer_id offer oid = some o
      rw [upd_ne _ _ _ hne]
      exact ho
  | acceptOffer oid2 player payment now o2 o2' evs ho2 hrun =>
      obtain ⟨ho2', -⟩ := accept_offer_ok_inv hrun
      by_cases heq : oid = oid2
      · refine ⟨o2', ?_, ?_⟩
        · show upd w.offers oid2 o2' oid = some o2'
          unfold upd
          simp [heq]
        · rw [ho2']
      · refine ⟨o, ?_, hia⟩
        show upd w.offers oid2 o2' oid = some o
        rw [upd_ne _ _ _ heq]
        exact ho

/-- Across any number of steps a deactivated offer stays deactivated. -/
theorem steps_offer_stays_inactive {w w' : World}
    (hs : Relation.ReflTransGen Step w w') {oid : Nat} {o : TradingOffer}
    (ho : w.offers oid = some o) (hia : o.is_active = false) :
    ∃ o', w'.offers oid = some o' ∧ o'.is_active = false := by
  induction hs with
  | refl => exact ⟨o, ho, hia⟩
  | tail hstep hlast ih =>
      obtain ⟨o'', ho'', hia''⟩ := ih
      exact step_offer_stays_inactive hlast ho'' hia''

/-! ## Concrete sample data -/

def mvTackle : PokemonMove :=
  { name := "Tackle", pokemon_type := 0, move_type := 0, power := 40,
    accuracy := 100, energy_cost := 0, description := "" }

def cdPika : PokemonCardData :=
  { name := "Pika", pokemon_type := 0, hp := 100, attack := 50, defense := 10,
    speed := 0, rarity := 0, evolution_stage := 0, evolution_cost := 0,
    moves := [mvTackle], image_uri := "", description := "" }

def gs0 : GameState := initGameState 7

def gs1 : GameState := { gs0 with total_cards_minted := 1 }

def gs2 : GameState := { gs1 with total_battles := 1 }

def psA1 : PlayerState :=
  { player := 0, card_count := 1, active_battle_id := 0, energy := 0,
    wins := 0, losses := 0 }

def cardPika : PokemonCard :=
  { token_id := 0, owner := 1, name := "Pika", pokemon_type := 0, hp := 100,
    attack := 50, defense := 10, speed := 0, rarity := 0, evolution_stage := 0,
    evolution_cost := 0, moves := [mvTackle], image_uri := "", description := "",
    is_active := true, minted_at := 0 }

def battle0 : Battle :=
  { battle_id := 0, player1 := 1, player2 := 0, player1_pokemon := [0],
    player2_pokemon := [], status := .Waiting, turn_number := 0,
    current_player := 1, created_at := 0, finished_at := 0 }

def w0cex : World := World.start 7

def w1cex : World :=
  { w0cex with game := gs1, players := upd w0cex.players 1 psA1,
               cards := upd w0cex.cards 0 cardPika }

def w2cex : World :=
  { w1cex with game := gs2, players := upd w1cex.players 1 psA1,
               battles := upd w1cex.battles 0 battle0 }

/-- The invariant asserted by claim C1, stated in the spec's words: a
player's `active_battle_id` is non-zero iff that player is a
participant (player1 or player2) of some battle whose status is
Waiting or Active. -/
def ActiveBattleInv (w : World) : Prop :=
  ∀ p ps, w.players p = some ps →
    (ps.active_battle_id ≠ 0 ↔
      ∃ bid b, w.battles bid = some b ∧
        (b.status = .Waiting ∨ b.status = .Active) ∧
        (b.player1 = p ∨ b.player2 = p))

/-- C1 (counterexample): the claimed iff-invariant fails at a reachable
state.  Trace: `initialize` (authority 7), player 1 mints card 0,
player 1 creates the first battle.  The first battle receives
`battle_id = 0` (the counter value), so `active_battle_id` is set to
`0` — the "no battle" sentinel — although player 1 participates in a
Waiting battle. -/
theorem C1_counterexample : Reachable w2cex ∧ ¬ ActiveBattleInv w2cex := by
  constructor
  · have s1 : Step w0cex w1cex :=
      Step.mint w0cex 1 1000000 cdPika 0 gs1 psA1 cardPika
        [Event.PokemonCardMinted 0 1 "Pika" 0 0] rfl (by decide)
    have s2 : Step w1cex w2cex :=
      Step.createBattle w1cex 1 500000 [0] 0 psA1 gs2 psA1 battle0
        [Event.BattleCreated 0 1 0] (by decide) rfl (by decide)
    exact Reachable.step (Reachable.step (Reachable.start 7) s1) s2
  · intro hinv
    have h := hinv 1 psA1 (by decide)
    exact (h.mpr ⟨0, battle0, rfl, Or.inl rfl, Or.inl rfl⟩) rfl

/-- C1 (amended): what actually holds after a successful `create_battle`
or `join_battle`: the acting player's `active_battle_id` equals the
battle's `battle_id` (a Waiting battle created by them, resp. an Active
battle they joined as player2).  Because the first battle's id is `0`
(and nothing resets `active_battle_id` when a battle finishes), the
claimed non-zero iff-invariant does not hold. -/
theorem C1_active_battle_amended :
    (∀ g ps player pay ids now g' ps' battle evs,
        create_battle g ps player pay ids now = (none, g', ps', some battle, evs) →
        ps'.active_battle_id = battle.battle_id ∧ battle.status = .Waiting ∧
        battle.player1 = player ∧ battle.current_player = player) ∧
    (∀ b ps player ids b' ps' evs,
        join_battle b ps player ids = (none, b', ps', evs) →
        ps'.active_battle_id = b'.battle_id ∧ b'.status = .Active ∧
        b'.player2 = player) := by
  constructor
  · intro g ps player pay ids now g' ps' battle evs h
    obtain ⟨-, hps', hbattle, -⟩ := create_battle_ok_inv h
    rw [hps', hbattle]
    exact ⟨rfl, rfl, rfl, rfl⟩
  · intro b ps player ids b' ps' evs h
    obtain ⟨hb', hps', -⟩ := join_battle_ok_inv h
    rw [hps', hb']
    exact ⟨rfl, rfl, rfl⟩

/-- Witness for the amended C1, at the concrete first-battle input. -/
theorem C1_active_battle_amended_witness :
    psA1.active_battle_id = battle0.battle_id ∧ battle0.status = .Waiting ∧
    battle0.player1 = 1 ∧ battle0.current_player = 1 :=
  C1_active_battle_amended.1 gs1 psA1 1 500000 [0] 0 gs2 psA1 battle0
    [Event.BattleCreated 0 1 0] (by decide)

/-- C2: token ids, battle ids and offer ids are assigned as the current
value of their global counter, which is incremented exactly once per
successful operation (the other counters untouched); a failing
invocation leaves every account unchanged and emits nothing; no step
decreases a counter; and in every reachable world every stored card /
battle / offer sits at a key strictly below its counter, so an
allocated id is never reused. -/
theorem C2_id_allocation :
    (∀ g ps player pay cd now g' ps' card evs,
        mint_pokemon_card g ps player pay cd now = (none, g', ps', some card, evs) →
        card.token_id = g.total_cards_minted ∧
        g'.total_cards_minted = g.total_cards_minted + 1 ∧
        g'.total_battles = g.total_battles ∧ g'.total_trades = g.total_trades) ∧
    (∀ g ps player pay ids now g' ps' battle evs,
        create_battle g ps player pay ids now = (none, g', ps', some battle, evs) →
        battle.battle_id = g.total_battles ∧
        g'.total_battles = g.total_battles + 1 ∧
        g'.total_cards_minted = g.total_cards_minted ∧
        g'.total_trades = g.total_trades) ∧
    (∀ g player pay off req tgt now g' offer evs,
        create_trading_offer g player pay off req tgt now = (none, g', some offer, evs) →
        offer.offer_id = g.total_trades ∧
        g'.total_trades = g.total_trades + 1 ∧
        g'.total_cards_minted = g.total_cards_minted ∧
        g'.total_battles = g.total_battles) ∧
    (∀ g ps player pay cd now e g' ps' card? evs,
        mint_pokemon_card g ps player pay cd now = (some e, g', ps', card?, evs) →
        g' = g ∧ ps' = ps ∧ card? = none ∧ evs = []) ∧
    (∀ g ps player pay ids now e g' ps' battle? evs,
        create_battle g ps player pay ids now = (some e, g', ps', battle?, evs) →
        g' = g ∧ ps' = ps ∧ battle? = none ∧ evs = []) ∧
    (∀ g player pay off req tgt now e g' offer? evs,
        create_trading_offer g player pay off req tgt now = (some e, g', offer?, evs) →
        g' = g ∧ offer? = none ∧ evs = []) ∧
    (∀ w w', Step w w' →
        w.game.total_cards_minted ≤ w'.game.total_cards_minted ∧
        w.game.total_battles ≤ w'.game.total_battles ∧
        w.game.total_trades ≤ w'.game.total_trades) ∧
    (∀ w, Reachable w →
        (∀ id c, w.cards id = some c → id < w.game.total_cards_minted) ∧
        (∀ id b, w.battles id = some b → id < w.game.total_battles) ∧
        (∀ id o, w.offers id = some o → id < w.game.total_trades)) := by
  refine ⟨?_, ?_, ?_, ?_, ?_, ?_, ?_, ?_⟩
  · intro g ps player pay cd now g' ps' card evs h
    obtain ⟨hg, -, hcard, -⟩ := mint_ok_inv h
    rw [hg, hcard]
    exact ⟨rfl, rfl, rfl, rfl⟩
  · intro g ps player pay ids now g' ps' battle evs h
    obtain ⟨hg, -, hbattle, -⟩ := create_battle_ok_inv h
    rw [hg, hbattle]
    exact ⟨rfl, rfl, rfl, rfl⟩
  · intro g player pay off req tgt now g' offer evs h
    obtain ⟨hg, hoffer, -⟩ := create_offer_ok_inv h
    rw [hg, hoffer]
    exact ⟨rfl, rfl, rfl, rfl⟩
  · intro g ps player pay cd now e g' ps' card? evs h
    exact mint_err_inv h
  · intro g ps player pay ids now e g' ps' battle? evs h
    exact create_battle_err_inv h
  · intro g player pay off req tgt now e g' offer? evs h
    exact create_offer_err_inv h
  · intro w w' hs
    have h := Step.config_and_counters hs
    exact ⟨h.2.2.2.2.2.2.2.2.1, h.2.2.2.2.2.2.2.2.2.1, h.2.2.2.2.2.2.2.2.2.2⟩
  · intro w hw
    exact reachable_ids_lt hw

/-- Witness for C2 at the concrete first mint: token id 0 is assigned
and the counter moves from 0 to 1. -/
theorem C2_id_allocation_witness :
    cardPika.token_id = gs0.total_cards_minted ∧
    gs1.total_cards_minted = gs0.total_cards_minted + 1 ∧
    gs1.total_battles = gs0.total_battles ∧
    gs1.total_trades = gs0.total_trades :=
  C2_id_allocation.1 gs0 freshPlayer 1 1000000 cdPika 0 gs1 psA1 cardPika
    [Event.PokemonCardMinted 0 1 "Pika" 0 0] (by decide)

def cardBigAtk : PokemonCard := { cardPika with attack := 2 ^ 32 }

def cardZeroDef : PokemonCard :=
  { cardPika with token_id := 1, owner := 2, defense := 0 }

def mvBigPow : PokemonMove := { mvTackle with power := 2 ^ 32 }

/-- C3 (counterexample): with power = attack = 2^32 and defense = 0 the
`u64` product `power * attack` wraps to `0`, so the code returns
damage 1, while the claim's exact formula `floor(p * a / (d + 50))`
gives `2^64 / 50 = 368934881474191032 > 0` and hence demands that
value (with overflow checks enabled the multiplication would abort
instead — still not the claimed value). -/
theorem C3_counterexample :
    calculate_damage cardBigAtk cardZeroDef mvBigPow = some 1 ∧
    mvBigPow.power * cardBigAtk.attack / (cardZeroDef.defense + 50)
      = 368934881474191032 ∧
    (368934881474191032 : Nat) ≠ 1 :=
  ⟨by decide, by decide, by decide⟩

/-- C3 (amended): in the overflow-free range (`p * a < 2^64` and
`d + 50 < 2^64`) the damage equals `floor(p * a / (d + 50))` when that
quotient is positive and `1` otherwise; and every damage value the
function produces is `≥ 1` (in particular for `d = 0` and `p = 0`). -/
theorem C3_damage_amended :
    (∀ attacker defender md,
        md.power * attacker.attack < U64MOD →
        defender.defense + 50 < U64MOD →
        calculate_damage attacker defender md =
          some (if md.power * attacker.attack / (defender.defense + 50) > 0
                then md.power * attacker.attack / (defender.defense + 50)
                else 1)) ∧
    (∀ attacker defender md v,
        calculate_damage attacker defender md = some v → v ≥ 1) := by
  constructor
  · intro attacker defender md h1 h2
    simp only [calculate_damage]
    rw [Nat.mod_eq_of_lt h2, Nat.mod_eq_of_lt h1]
    rw [if_neg (by omega)]
  · intro attacker defender md v h
    simp only [calculate_damage] at h
    split at h
    · simp at h
    · simp only [Option.some.injEq] at h
      rw [← h]
      split_ifs <;> omega

/-- Witness for the amended C3: the 40/50/10 example computes 33. -/
theorem C3_damage_amended_witness :
    calculate_damage cardPika cardZeroDef mvTackle =
      some (if mvTackle.power * cardPika.attack / (cardZeroDef.defense + 50) > 0
            then mvTackle.power * cardPika.attack / (cardZeroDef.defense + 50)
            else 1) ∧
    (40 : Nat) ≥ 1 :=
  ⟨C3_damage_amended.1 cardPika cardZeroDef mvTackle (by decide) (by decide),
   C3_damage_amended.2 cardPika cardZeroDef mvTackle 40 (by decide)⟩

def cardMeow : PokemonCard :=
  { cardPika with token_id := 1, owner := 2, attack := 30 }

def battleAct : Battle :=
  { battle0 with player2 := 2, player2_pokemon := [1], status := .Active }

/-- C4: when every guard of `execute_move` passes, then: if the damage
reaches the defender card's hp the battle becomes Finished with
`finished_at = now` and `current_player` / `turn_number` untouched;
otherwise the battle stays Active, `current_player` toggles to the
other participant and `turn_number` grows by exactly 1.  With
power 40 / attack 50 / defense 10 the damage is `⌊2000/60⌋ = 33`. -/
theorem C4_move_resolution :
    (∀ g b ps c1 c2 player idx now md damage,
        b.status = .Active → b.current_player = player →
        now ≤ b.created_at + (g.max_battle_duration : Int) →
        idx < c1.moves.length % 256 →
        c1.moves.get? idx = some md →
        md.energy_cost ≤ ps.energy →
        calculate_damage c1 c2 md = some damage →
        ((execute_move g b ps c1 c2 player idx now).1 = .ok ∧
         (damage ≥ c2.hp →
            (execute_move g b ps c1 c2 player idx now).2.1 =
              { b with status := .Finished, finished_at := now }) ∧
         (damage < c2.hp →
            (execute_move g b ps c1 c2 player idx now).2.1 =
              { b with
                  current_player :=
                    if b.current_player = b.player1 then b.player2 else b.player1
                  turn_number := b.turn_number + 1 }))) ∧
    (∀ c1 c2 md, c1.attack = 50 → c2.defense = 10 → md.power = 40 →
        calculate_damage c1 c2 md = some 33) := by
  constructor
  · intro g b ps c1 c2 player idx now md damage h1 h2 h3 h4 hmd h5 hdmg
    unfold execute_move
    rw [if_neg (not_not_intro h1), if_neg (not_not_intro h2),
        if_neg (not_not_intro h3), if_neg (not_not_intro h4), hmd]
    dsimp only
    rw [if_neg (not_not_intro h5), hdmg]
    dsimp only
    by_cases hge : damage ≥ c2.hp
    · rw [if_pos hge]
      exact ⟨rfl, fun _ => rfl, fun hlt => absurd hge (by omega)⟩
    · rw [if_neg hge]
      exact ⟨rfl, fun hge2 => absurd hge2 hge, fun _ => rfl⟩
  · intro c1 c2 md ha hd hp
    simp only [calculate_damage]
    rw [ha, hd, hp]
    decide

/-- Witness for C4: player 1 hits with Tackle (damage 33 < hp 100), so
the turn passes to player 2 and the turn number becomes 1. -/
theorem C4_move_resolution_witness :
    (execute_move gs2 battleAct psA1 cardPika cardMeow 1 0 0).1 = .ok ∧
    (execute_move gs2 battleAct psA1 cardPika cardMeow 1 0 0).2.1 =
      { battleAct with
          current_player := if battleAct.current_player = battleAct.player1
                            then battleAct.player2 else battleAct.player1
          turn_number := battleAct.turn_number + 1 } := by
  have h := C4_move_resolution.1 gs2 battleAct psA1 cardPika cardMeow 1 0 0 mvTackle 33
    rfl rfl (by decide) (by decide) (by decide) (by decide) (by decide)
  exact ⟨h.1, h.2.2 (by decide)⟩

def card256 : PokemonCard := { cardPika with moves := List.replicate 256 mvTackle }

set_option maxRecDepth 4000 in
/-- C5 (counterexample): the source compares
`move_index < current_pokemon.moves.len() as u8`, truncating the move
count to `u8`.  For a card with 256 moves the truncated count is `0`,
so `execute_move` fails with `InvalidMove` at `move_index = 0` even
though `0 <` the actual move count `256` and every other guard passes
(the claim's condition `move_index ≥ move count` is false here). -/
theorem C5_counterexample :
    execute_move gs2 battleAct psA1 card256 cardMeow 1 0 0
      = (.err .InvalidMove, battleAct, psA1, []) ∧
    (0 : Nat) < card256.moves.length ∧
    battleAct.status = .Active ∧ battleAct.current_player = 1 ∧
    ((0 : Int) ≤ battleAct.created_at + (gs2.max_battle_duration : Int)) ∧
    psA1.energy ≥ mvTackle.energy_cost :=
  ⟨by decide, by decide, rfl, rfl, by decide, by decide⟩

/-- C5 (amended): the guards run in the order status, turn, timeout,
move validity, energy; each failure raises exactly its named error and
returns every account unchanged (and a timeout does not move the
battle to a terminal state); after the energy guard passes the actor's
energy is debited by the move's `energy_cost`.  The only change to the
claim: the `InvalidMove` condition is `move_index ≥ move count mod
256` (the count is truncated to `u8` before the comparison), which
coincides with `move_index ≥ move count` only for cards with fewer
than 256 moves. -/
theorem C5_guard_order :
    ∀ g b ps c1 c2 player idx now,
      (b.status ≠ .Active →
        execute_move g b ps c1 c2 player idx now
          = (.err .BattleNotActive, b, ps, [])) ∧
      (b.status = .Active → b.current_player ≠ player →
        execute_move g b ps c1 c2 player idx now
          = (.err .NotYourTurn, b, ps, [])) ∧
      (b.status = .Active → b.current_player = player →
        b.created_at + (g.max_battle_duration : Int) < now →
        execute_move g b ps c1 c2 player idx now
          = (.err .BattleTimeout, b, ps, [])) ∧
      (b.status = .Active → b.current_player = player →
        now ≤ b.created_at + (g.max_battle_duration : Int) →
        ¬ (idx < c1.moves.length % 256) →
        execute_move g b ps c1 c2 player idx now
          = (.err .InvalidMove, b, ps, [])) ∧
      (∀ md, b.status = .Active → b.current_player = player →
        now ≤ b.created_at + (g.max_battle_duration : Int) →
        idx < c1.moves.length % 256 →
        c1.moves.get? idx = some md →
        ps.energy < md.energy_cost →
        execute_move g b ps c1 c2 player idx now
          = (.err .InsufficientEnergy, b, ps, [])) ∧
      (∀ md, b.status = .Active → b.current_player = player →
        now ≤ b.created_at + (g.max_battle_duration : Int) →
        idx < c1.moves.length % 256 →
        c1.moves.get? idx = some md →
        md.energy_cost ≤ ps.energy →
        (execute_move g b ps c1 c2 player idx now).2.2.1 =
          { ps with energy := ps.energy - md.energy_cost }) := by
  intro g b ps c1 c2 player idx now
  refine ⟨?_, ?_, ?_, ?_, ?_, ?_⟩
  · intro h1
    unfold execute_move
    rw [if_pos h1]
  · intro h1 h2
    unfold execute_move
    rw [if_neg (not_not_intro h1), if_pos h2]
  · intro h1 h2 h3
    unfold execute_move
    rw [if_neg (not_not_intro h1), if_neg (not_not_intro h2),
        if_pos (by omega : ¬ now ≤ b.created_at + (g.max_battle_duration : Int))]
  · intro h1 h2 h3 h4
    unfold execute_move
    rw [if_neg (not_not_intro h1), if_neg (not_not_intro h2),
        if_neg (not_not_intro h3), if_pos h4]
  · intro md h1 h2 h3 h4 hmd h5
    unfold execute_move
    rw [if_neg (not_not_intro h1), if_neg (not_not_intro h2),
        if_neg (not_not_intro h3), if_neg (not_not_intro h4), hmd]
    dsimp only
    rw [if_pos (by omega : ¬ ps.energy ≥ md.energy_cost)]
  · intro md h1 h2 h3 h4 hmd h5
    unfold execute_move
    rw [if_neg (not_not_intro h1), if_neg (not_not_intro h2),
        if_neg (not_not_intro h3), if_neg (not_not_intro h4), hmd]
    dsimp only
    rw [if_neg (not_not_intro h5)]
    rcases hdm : calculate_damage c1 c2 md with _ | damage
    · rfl
    · dsimp only
      split_ifs <;> rfl

/-- Witness for the amended C5: a timed-out move fails with
`BattleTimeout` leaving the state alone, and a successful move debits
the energy cost. -/
theorem C5_guard_order_witness :
    execute_move gs2 battleAct psA1 cardPika cardMeow 1 0 5000
      = (.err .BattleTimeout, battleAct, psA1, []) ∧
    (execute_move gs2 battleAct psA1 cardPika cardMeow 1 0 0).2.2.1 =
      { psA1 with energy := psA1.energy - mvTackle.energy_cost } :=
  ⟨(C5_guard_order gs2 battleAct psA1 cardPika cardMeow 1 0 5000).2.2.1
      rfl rfl (by decide),
   (C5_guard_order gs2 battleAct psA1 cardPika cardMeow 1 0 0).2.2.2.2.2
      mvTackle rfl rfl (by decide) (by decide) (by decide) (by decide)⟩

theorem accept_success_char {g : GameState} {offer : TradingOffer} {player : Pubkey}
    {pay : Nat} {now : Int}
    (hact : offer.is_active = true) (hexp : now ≤ offer.expires_at)
    (hpay : pay ≥ g.trading_fee)
    (htgt : offer.target_player = none ∨ offer.target_player = some player) :
    accept_trading_offer g offer player pay now
      = (none, { offer with is_active := false },
         [Event.TradingOfferAccepted offer.offer_id player]) := by
  unfold accept_trading_offer
  rw [if_neg (by simp [hact]), if_neg (not_not_intro hexp),
      if_neg (not_not_intro hpay), if_neg (not_not_intro htgt)]

theorem accept_expired_char {g : GameState} {offer : TradingOffer} {player : Pubkey}
    {pay : Nat} {now : Int}
    (hact : offer.is_active = true) (hexp : ¬ now ≤ offer.expires_at) :
    accept_trading_offer g offer player pay now = (some .OfferExpired, offer, []) := by
  unfold accept_trading_offer
  rw [if_neg (by simp [hact]), if_pos hexp]

/-- C6: at creation `expires_at = created_at + offer_expiration_time`
(`604800` in the default configuration) and the offer is active; a
successful acceptance deactivates the offer; a deactivated offer stays
deactivated across any number of steps; and accepting a deactivated
offer fails with `OfferNotActive`. -/
theorem C6_offer_lifecycle :
    (∀ g player pay off req tgt now g' offer evs,
        create_trading_offer g player pay off req tgt now = (none, g', some offer, evs) →
        offer.created_at = now ∧
        offer.expires_at = offer.created_at + (g.offer_expiration_time : Int) ∧
        offer.is_active = true) ∧
    (∀ a, (initGameState a).offer_expiration_time = 604800) ∧
    (∀ g offer player pay now o' evs,
        accept_trading_offer g offer player pay now = (none, o', evs) →
        o'.is_active = false) ∧
    (∀ w w', Relation.ReflTransGen Step w w' → ∀ oid o,
        w.offers oid = some o → o.is_active = false →
        ∃ o', w'.offers oid = some o' ∧ o'.is_active = false) ∧
    (∀ g offer player pay now, offer.is_active = false →
        (accept_trading_offer g offer player pay now).1 = some .OfferNotActive) := by
  refine ⟨?_, fun a => rfl, ?_, ?_, ?_⟩
  · intro g player pay off req tgt now g' offer evs h
    obtain ⟨-, hoffer, -⟩ := create_offer_ok_inv h
    rw [hoffer]
    exact ⟨rfl, rfl, rfl⟩
  · intro g offer player pay now o' evs h
    obtain ⟨ho', -⟩ := accept_offer_ok_inv h
    rw [ho']
  · intro w w' hs oid o ho hia
    exact steps_offer_stays_inactive hs ho hia
  · intro g offer player pay now h
    unfold accept_trading_offer
    rw [if_pos (by simp [h])]

def offerX : TradingOffer :=
  { offer_id := 0, offerer := 1, offered_cards := [5], target_player := none,
    requested_cards := [9], is_active := true, created_at := 0,
    expires_at := 604800 }

def offerXoff : TradingOffer := { offerX with is_active := false }

def gs0T : GameState := { gs0 with total_trades := 1 }

/-- Witness for C6 at the concrete offer of the spec's Scenario 4. -/
theorem C6_offer_lifecycle_witness :
    offerX.created_at = 0 ∧
    offerX.expires_at = offerX.created_at + (gs0.offer_expiration_time : Int) ∧
    offerX.is_active = true ∧
    (accept_trading_offer gs0 offerXoff 2 100000 0).1 = some .OfferNotActive := by
  have h1 := C6_offer_lifecycle.1 gs0 1 100000 [5] [9] none 0 gs0T offerX
    [Event.TradingOfferCreated 0 1 none] (by decide)
  exact ⟨h1.1, h1.2.1, h1.2.2, C6_offer_lifecycle.2.2.2.2 gs0 offerXoff 2 100000 0 rfl⟩

/-- C7: for an active, sufficiently paid, correctly targeted offer,
acceptance fails with `OfferExpired` exactly when `now > expires_at`,
and succeeds at `now = expires_at`. -/
theorem C7_offer_expiry :
    ∀ g offer player pay now,
      offer.is_active = true → pay ≥ g.trading_fee →
      (offer.target_player = none ∨ offer.target_player = some player) →
      (((accept_trading_offer g offer player pay now).1 = some .OfferExpired) ↔
        now > offer.expires_at) ∧
      (now = offer.expires_at →
        (accept_trading_offer g offer player pay now).1 = none) := by
  intro g offer player pay now hact hpay htgt
  by_cases hexp : now ≤ offer.expires_at
  · rw [accept_success_char hact hexp hpay htgt]
    constructor
    · constructor
      · intro hcontra
        exact absurd hcontra (by simp)
      · intro hgt
        exact absurd hgt (by omega)
    · intro _
      rfl
  · rw [accept_expired_char hact hexp]
    constructor
    · constructor
      · intro _
        omega
      · intro _
        rfl
    · intro heq
      exact absurd (by omega : now ≤ offer.expires_at) hexp

/-- Witness for C7: acceptance succeeds at the exact expiry second and
fails with `OfferExpired` one second later. -/
theorem C7_offer_expiry_witness :
    (accept_trading_offer gs0 offerX 2 100000 604800).1 = none ∧
    (accept_trading_offer gs0 offerX 2 100000 604801).1 = some .OfferExpired :=
  ⟨(C7_offer_expiry gs0 offerX 2 100000 604800 rfl (by decide) (Or.inl rfl)).2 rfl,
   (C7_offer_expiry gs0 offerX 2 100000 604801 rfl (by decide) (Or.inl rfl)).1.mpr
     (by decide)⟩

def ps999 : PlayerState := { freshPlayer with card_count := 999 }

def ps1000 : PlayerState := { freshPlayer with card_count := 1000 }

/-- C8: in every reachable world `card_count ≤ max_cards_per_player`;
given sufficient payment, minting fails with `MaxCardsExceeded` exactly
when `card_count = max_cards_per_player`, and succeeds at
`card_count = max_cards_per_player - 1`. -/
theorem C8_max_cards :
    (∀ w, Reachable w → ∀ p ps, w.players p = some ps →
        ps.card_count ≤ w.game.max_cards_per_player) ∧
    (∀ g ps player pay cd now,
        pay ≥ g.mint_price → ps.card_count ≤ g.max_cards_per_player →
        (((mint_pokemon_card g ps player pay cd now).1 = some .MaxCardsExceeded) ↔
          ps.card_count = g.max_cards_per_player)) ∧
    (∀ g ps player pay cd now,
        pay ≥ g.mint_price → 1 ≤ g.max_cards_per_player →
        ps.card_count = g.max_cards_per_player - 1 →
        (mint_pokemon_card g ps player pay cd now).1 = none) := by
  refine ⟨fun w hw => reachable_card_count_le hw, ?_, ?_⟩
  · intro g ps player pay cd now hpay hle
    unfold mint_pokemon_card
    rw [if_neg (not_not_intro hpay)]
    by_cases hlt : ps.card_count < g.max_cards_per_player
    · rw [if_neg (not_not_intro hlt)]
      constructor
      · intro hcontra
        exact absurd hcontra (by simp)
      · intro heq
        exact absurd heq (by omega)
    · rw [if_pos hlt]
      constructor
      · intro _
        omega
      · intro _
        rfl
  · intro g ps player pay cd now hpay hmax hcount
    unfold mint_pokemon_card
    rw [if_neg (not_not_intro hpay),
        if_neg (not_not_intro (by omega : ps.card_count < g.max_cards_per_player))]

/-- Witness for C8 at the default limit 1000: a player with 1000 cards
is rejected, a player with 999 cards mints successfully. -/
theorem C8_max_cards_witness :
    (mint_pokemon_card gs0 ps1000 1 1000000 cdPika 0).1 = some .MaxCardsExceeded ∧
    (mint_pokemon_card gs0 ps999 1 1000000 cdPika 0).1 = none :=
  ⟨(C8_max_cards.2.1 gs0 ps1000 1 1000000 cdPika 0 (by decide) (by decide)).mpr
      (by decide),
   C8_max_cards.2.2 gs0 ps999 1 1000000 cdPika 0 (by decide) (by decide) (by decide)⟩

/-- Overwrite only the `energy_per_turn` tunable. -/
def setEPT (g : GameState) (v : Nat) : GameState := { g with energy_per_turn := v }

def mvCostly : PokemonMove := { mvTackle with energy_cost := 5 }

def cardCostly : PokemonCard := { cardPika with moves := [mvCostly] }

/-- C9: a freshly created player record has energy 0; minting never
changes energy; no step increases any player's energy; a player with
energy 0 can never successfully execute a move whose cost is positive
(and gets `InsufficientEnergy` when the earlier guards pass); and
every handler that reads the configuration is invariant under changing
`energy_per_turn` (it is only ever copied through, never applied;
`join_battle` does not even take the configuration). -/
theorem C9_energy :
    freshPlayer.energy = 0 ∧
    (∀ g ps player pay cd now g' ps' card evs,
        mint_pokemon_card g ps player pay cd now = (none, g', ps', some card, evs) →
        ps'.energy = ps.energy) ∧
    (∀ w w', Step w w' → ∀ p, w'.energyOf p ≤ w.energyOf p) ∧
    (∀ g b ps c1 c2 player idx now md,
        ps.energy = 0 → c1.moves.get? idx = some md → md.energy_cost > 0 →
        (execute_move g b ps c1 c2 player idx now).1 ≠ .ok) ∧
    (∀ g b ps c1 c2 player idx now md,
        b.status = .Active → b.current_player = player →
        now ≤ b.created_at + (g.max_battle_duration : Int) →
        idx < c1.moves.length % 256 → c1.moves.get? idx = some md →
        ps.energy = 0 → md.energy_cost > 0 →
        (execute_move g b ps c1 c2 player idx now).1 = .err .InsufficientEnergy) ∧
    (∀ g v ps player pay cd now,
        mint_pokemon_card (setEPT g v) ps player pay cd now =
          ((mint_pokemon_card g ps player pay cd now).1,
           setEPT (mint_pokemon_card g ps player pay cd now).2.1 v,
           (mint_pokemon_card g ps player pay cd now).2.2)) ∧
    (∀ g v ps player pay ids now,
        create_battle (setEPT g v) ps player pay ids now =
          ((create_battle g ps player pay ids now).1,
           setEPT (create_battle g ps player pay ids now).2.1 v,
           (create_battle g ps player pay ids now).2.2)) ∧
    (∀ g v b ps c1 c2 player idx now,
        execute_move (setEPT g v) b ps c1 c2 player idx now =
          execute_move g b ps c1 c2 player idx now) ∧
    (∀ g v player pay off req tgt now,
        create_trading_offer (setEPT g v) player pay off req tgt now =
          ((create_trading_offer g player pay off req tgt now).1,
           setEPT (create_trading_offer g player pay off req tgt now).2.1 v,
           (create_trading_offer g player pay off req tgt now).2.2)) ∧
    (∀ g v offer player pay now,
        accept_trading_offer (setEPT g v) offer player pay now =
          accept_trading_offer g offer player pay now) := by
  refine ⟨rfl, ?_, ?_, ?_, ?_, ?_, ?_, ?_, ?_, ?_⟩
  · intro g ps player pay cd now g' ps' card evs h
    obtain ⟨-, hps', -⟩ := mint_ok_inv h
    rw [hps']
  · exact fun w w' hs p => step_energy_mono hs p
  · intro g b ps c1 c2 player idx now md h0 hmd hcost hok
    have heq : execute_move g b ps c1 c2 player idx now
        = ((execute_move g b ps c1 c2 player idx now).1,
           (execute_move g b ps c1 c2 player idx now).2.1,
           (execute_move g b ps c1 c2 player idx now).2.2.1,
           (execute_move g b ps c1 c2 player idx now).2.2.2) := rfl
    rw [hok] at heq
    obtain ⟨md', damage, -, -, -, -, hmd', hcost', -⟩ := execute_move_ok_inv heq
    rw [hmd] at hmd'
    obtain rfl : md = md' := Option.some.inj hmd'
    omega
  · intro g b ps c1 c2 player idx now md h1 h2 h3 h4 hmd h0 hcost
    unfold execute_move
    rw [if_neg (not_not_intro h1), if_neg (not_not_intro h2),
        if_neg (not_not_intro h3), if_neg (not_not_intro h4), hmd]
    dsimp only
    rw [if_pos (by omega : ¬ ps.energy ≥ md.energy_cost)]
  · intro g v ps player pay cd now
    dsimp only [mint_pokemon_card, setEPT]
    split_ifs <;> rfl
  · intro g v ps player pay ids now
    dsimp only [create_battle, setEPT]
    split_ifs <;> rfl
  · intro g v b ps c1 c2 player idx now
    rfl
  · intro g v player pay off req tgt now
    dsimp only [create_trading_offer, setEPT]
    split_ifs <;> rfl
  · intro g v offer player pay now
    rfl

/-- Witness for C9: a fresh player (energy 0) attempting a cost-5 move
fails with `InsufficientEnergy`. -/
theorem C9_energy_witness :
    (execute_move gs2 battleAct psA1 cardCostly cardMeow 1 0 0).1 ≠ .ok ∧
    (execute_move gs2 battleAct psA1 cardCostly cardMeow 1 0 0).1
      = .err .InsufficientEnergy :=
  ⟨C9_energy.2.2.2.1 gs2 battleAct psA1 cardCostly cardMeow 1 0 0 mvCostly
      rfl (by decide) (by decide),
   C9_energy.2.2.2.2.1 gs2 battleAct psA1 cardCostly cardMeow 1 0 0 mvCostly
      rfl rfl (by decide) (by decide) (by decide) rfl (by decide)⟩

/-- Replace a battle's two team lists. -/
def setTeams (q1 q2 : List Nat) (b : Battle) : Battle :=
  { b with player1_pokemon := q1, player2_pokemon := q2 }

/-- Replace a card's owner. -/
def setOwner (o : Pubkey) (c : PokemonCard) : PokemonCard := { c with owner := o }

theorem calculate_damage_owner_irrel (c1 c2 : PokemonCard) (o1 o2 : Pubkey)
    (md : PokemonMove) :
    calculate_damage { c1 with owner := o1 } { c2 with owner := o2 } md
      = calculate_damage c1 c2 md := rfl

/-- C10: `execute_move` never reads the two cards' `owner` fields or
the battle's team lists: changing them (all other inputs equal) yields
the same outcome, the same damage and events, the same player state,
and the same battle except that the replaced team lists are carried
through unchanged.  In particular the handler never checks that the
attacker card is owned by the actor or that either card belongs to the
battle's teams. -/
theorem C10_owner_team_independence :
    ∀ g b ps c1 c2 player idx now q1 q2 o1 o2,
      execute_move g (setTeams q1 q2 b) ps (setOwner o1 c1) (setOwner o2 c2)
          player idx now
        = ((execute_move g b ps c1 c2 player idx now).1,
           setTeams q1 q2 (execute_move g b ps c1 c2 player idx now).2.1,
           (execute_move g b ps c1 c2 player idx now).2.2.1,
           (execute_move g b ps c1 c2 player idx now).2.2.2) := by
  intro g b ps c1 c2 player idx now q1 q2 o1 o2
  dsimp only [execute_move, setTeams, setOwner]
  split_ifs <;> try rfl
  all_goals rcases hmd : c1.moves.get? idx with _ | md <;> dsimp only
  all_goals try (split_ifs <;> try rfl)
  all_goals try rw [calculate_damage_owner_irrel]
  all_goals try (rcases hdm : calculate_damage c1 c2 md with _ | damage <;> dsimp only)
  all_goals first
    | rfl
    | (split_ifs <;> rfl)
